import Mathlib

/-
Shallow embedding of src/docker-entrypoint.py: a container entrypoint that
resolves environment-variable configuration into a normalized PGConfig and
drives a one-time bootstrap against a fresh data directory.

Modelling conventions:
- The process environment is a finite association list of direct key/value
  bindings.  The `X_FILE` indirection of `file_env` reads the filesystem and
  is outside the modelled environments; since the environment is immutable
  here, the per-key memoization cache of `file_env` is observably transparent
  and needs no state.
- Python `None`-or-string values are `Option String`; Python truthiness of
  such a value (used at several decision points in `setup`) is `truthy`.
- Fatal `error_exit` calls and uncaught exceptions both become `Except.error`.
- External side effects of `setup` (subprocess calls, writes to pg_hba.conf,
  SQL piped to psql, diagnostics) are recorded as an ordered `Event` trace.
- `itertools.count` in the indexed scheme is modelled with explicit fuel
  `env.length + 1`: an environment with `n` bindings can bind at most `n`
  of the distinct keys POSTGRES_USER_0 .. POSTGRES_USER_n, so the loop
  always reaches an unset index (or an error) before the fuel runs out.
- `shlex.split` (a Python stdlib collaborator, applied only to
  POSTGRES_INITDB_ARGS) is modelled as whitespace tokenization; no claim
  exercises its quoting rules.
-/

namespace Entrypoint

/-- The single-quote character, kept out of string literals. -/
def sq : String := (Char.ofNat 39).toString

/-- Split a character list at every separator position, keeping empty
segments, as Python `str.split(sep)` does (both separators used by the
source, the pipe and the colon, are single characters). -/
def splitBy (p : Char → Bool) : List Char → List (List Char)
  | [] => [[]]
  | c :: cs =>
    if p c then [] :: splitBy p cs
    else
      match splitBy p cs with
      | [] => [[c]]
      | l :: ls => (c :: l) :: ls

/-- Python `s.split(sep)` for a one-character separator. -/
def pySplit (sep : Char) (s : String) : List String :=
  (splitBy (fun c => c == sep) s.data).map String.mk

/-- Python `s.strip()`: remove leading and trailing whitespace. -/
def pyStrip (s : String) : String :=
  String.mk ((s.data.dropWhile Char.isWhitespace).reverse.dropWhile Char.isWhitespace).reverse

/-- Python `s.startswith(pre)`. -/
def pyStartsWith (s : String) (pre : String) : Bool :=
  pre.data.isPrefixOf s.data

/-- Python `s[n:]` (character slicing). -/
def pyDrop (s : String) (n : Nat) : String :=
  String.mk (s.data.drop n)

abbrev Env := List (String × String)

/-- First binding of a key in the environment (a Python dict has unique keys,
so first-wins lookup is adequate). -/
def envLookup (env : Env) (var : String) : Option String :=
  match env with
  | [] => none
  | (k, v) :: rest => if k == var then some v else envLookup rest var

/-- `file_env(var, default)`: read a value from the environment, stripping
surrounding whitespace; return `default` when unset.  (The `_FILE`
indirection and the memoization cache are outside the modelled state, see
the header comment.) -/
def file_env (env : Env) (var : String) (default : Option String) : Option String :=
  match envLookup env var with
  | some v => some (pyStrip v)
  | none => default

structure PGUser where
  name : String
  password : Option String
  superuser : Bool
deriving DecidableEq, Repr

structure PGDatabase where
  name : Option String
  owner : Option String
deriving DecidableEq, Repr

structure PGDbConf where
  name : String
  value : String
deriving DecidableEq, Repr

structure PGConfig where
  init_args : List String
  db_config : List PGDbConf
  postgres_password : Option String
  users : List PGUser
  databases : List PGDatabase
deriving DecidableEq, Repr

/-- Mutable accumulation state of `load_config` (the Python closures share
`seen_users`, `seen_databases`, `postgres_password`, `users`, `databases`,
`db_config`). -/
structure ResolverState where
  seen_users : List String
  seen_databases : List (Option String)
  db_config : List PGDbConf
  postgres_password : Option String
  users : List PGUser
  databases : List PGDatabase
deriving DecidableEq, Repr

def initialState : ResolverState := ⟨[], [], [], none, [], []⟩

/-- Inner function `add_user` of `load_config`. -/
def add_user (name : String) (password : Option String) (superuser : Bool)
    (st : ResolverState) : Except String ResolverState :=
  if name ∈ st.seen_users then
    .error ("user " ++ name ++ " registered twice")
  else if name = "postgres" then
    if superuser then
      .ok { st with postgres_password := password, seen_users := name :: st.seen_users }
    else
      .error "cannot change postgres to a non-superuser"
  else
    .ok { st with users := st.users ++ [⟨name, password, superuser⟩],
                  seen_users := name :: st.seen_users }

/-- Python `str(x)` as applied by `'...{}'.format(x)` to a possibly-None value. -/
def pyStr : Option String → String
  | none => "None"
  | some s => s

/-- Inner function `add_database` of `load_config`.  The database name may be
Python `None` (it is `file_env('POSTGRES_USER')` at one call site). -/
def add_database (name : Option String) (owner : Option String)
    (st : ResolverState) : Except String ResolverState :=
  if name = some "postgres" then
    if owner ≠ none ∧ owner ≠ some "postgres" then
      .error ("cannot change owner of database postgres to " ++ pyStr owner)
    else
      .ok st
  else if name ∈ st.seen_databases then
    .error ("database " ++ pyStr name ++ " registered twice")
  else
    .ok { st with databases := st.databases ++ [⟨name, owner⟩],
                  seen_databases := name :: st.seen_databases }

/-- Inner function `add_user_from_multi` of `load_config`: a leading `!`
marks a superuser and is stripped (with a further whitespace strip). -/
def add_user_from_multi (name : Option String) (password : Option String)
    (st : ResolverState) : Except String ResolverState :=
  match name with
  | none => .error "TypeError: NoneType has no attribute startswith"
  | some n =>
    if pyStartsWith n "!" then add_user (pyStrip (pyDrop n 1)) password true st
    else add_user n password false st

/-- The `POSTGRES_CONFIGS` callback `lambda name, value: db_config.append(...)`. -/
def add_db_conf (name : Option String) (value : Option String)
    (st : ResolverState) : Except String ResolverState :=
  match name, value with
  | some n, some v => .ok { st with db_config := st.db_config ++ [⟨n, v⟩] }
  | _, _ => .error "TypeError: NoneType argument"

/-- `rpad(lst, n, pad)`. -/
def rpad (l : List (Option String)) (n : Nat) (pad : Option String) : List (Option String) :=
  if n ≤ l.length then l else l ++ List.replicate (n - l.length) pad

/-- The generator `(spec.strip() for spec in raw.split('|') if spec)`:
drop empty raw segments, then strip the survivors. -/
def pipeEntries (raw : String) : List String :=
  ((pySplit '|' raw).filter (fun s => !(s == ""))).map pyStrip

/-- The generator `(p.strip() for p in spec.split(':'))`. -/
def colonParts (spec : String) : List String :=
  (pySplit ':' spec).map pyStrip

/-- `func(*rpad(...))` with a binary `func`: any other arity raises TypeError. -/
def apply2 (func : Option String → Option String → ResolverState → Except String ResolverState)
    (args : List (Option String)) (st : ResolverState) : Except String ResolverState :=
  match args with
  | [a, b] => func a b st
  | _ => .error "TypeError: wrong number of arguments"

/-- `double_split_apply(env, func, pad_len)`. -/
def double_split_apply (env : Env) (key : String)
    (func : Option String → Option String → ResolverState → Except String ResolverState)
    (pad_len : Nat) (st : ResolverState) : Except String ResolverState :=
  (pipeEntries ((file_env env key (some "")).getD "")).foldlM
    (fun st spec => apply2 func (rpad ((colonParts spec).map some) pad_len none) st) st

/-- Scheme 1 (lines 137-141): POSTGRES_USER / POSTGRES_PASSWORD /
POSTGRES_DATABASE.  Note the source registers the database under the value
of POSTGRES_USER (both as name and owner), not POSTGRES_DATABASE. -/
def single_stage (env : Env) (st : ResolverState) : Except String ResolverState :=
  match (match file_env env "POSTGRES_USER" none with
         | some u => add_user u (file_env env "POSTGRES_PASSWORD" none) true st
         | none => .ok st) with
  | .error e => .error e
  | .ok st =>
    match file_env env "POSTGRES_DATABASE" none with
    | some _ => add_database (file_env env "POSTGRES_USER" none)
                  (file_env env "POSTGRES_USER" none) st
    | none => .ok st

def userKey (i : Nat) : String := "POSTGRES_USER_" ++ toString i
def pwKey (i : Nat) : String := "POSTGRES_PASSWORD_" ++ toString i
def superKey (i : Nat) : String := "POSTGRES_SUPERUSER_" ++ toString i
def dbsKey (i : Nat) : String := "POSTGRES_DATABASES_" ++ toString i

/-- Scheme 3 (lines 147-161): the indexed loop, with explicit fuel (see the
header comment on termination). -/
def indexed_stage (env : Env) (fuel : Nat) (i : Nat) (st : ResolverState) :
    Except String ResolverState :=
  match fuel with
  | 0 => .ok st
  | f + 1 =>
    match file_env env (userKey i) none with
    | none => .ok st
    | some user =>
      match add_user user (file_env env (pwKey i) none)
              (file_env env (superKey i) none == some "1") st with
      | .error e => .error e
      | .ok st =>
        match (pipeEntries ((file_env env (dbsKey i) (some "")).getD "")).foldlM
                (fun st db => add_database (some db) (some user) st) st with
        | .error e => .error e
        | .ok st => indexed_stage env f (i + 1) st

/-- `shlex.split`, modelled as whitespace tokenization (see header comment). -/
def shlex_split (s : String) : List String :=
  ((splitBy Char.isWhitespace s.data).map String.mk).filter (fun t => !(t == ""))

/-- `load_config()`: the full configuration resolver.  (`init_args` is
parsed first in the source; the parse is pure, so inlining it into the
result record is observably identical.) -/
def load_config (env : Env) : Except String PGConfig :=
  match double_split_apply env "POSTGRES_CONFIGS" add_db_conf 0 initialState with
  | .error e => .error e
  | .ok st =>
  match single_stage env st with
  | .error e => .error e
  | .ok st =>
  match double_split_apply env "POSTGRES_USERS" add_user_from_multi 2 st with
  | .error e => .error e
  | .ok st =>
  match double_split_apply env "POSTGRES_DATABASES" add_database 2 st with
  | .error e => .error e
  | .ok st =>
  match indexed_stage env (env.length + 1) 0 st with
  | .error e => .error e
  | .ok st =>
    .ok ⟨shlex_split ((file_env env "POSTGRES_INITDB_ARGS" (some "")).getD ""),
         st.db_config, st.postgres_password, st.users, st.databases⟩

/-- One external side effect of `setup` / `main`, in program order:
subprocess invocations (`check_call` / `call`), a line appended to
pg_hba.conf, the trust warning on stderr, a stdout message, or SQL piped to
`psql` (optionally against a named database). -/
inductive Event where
  | checkCall (cmd : List String)
  | call (cmd : List String)
  | writeHba (line : String)
  | warn
  | note (msg : String)
  | psql (sql : String)
  | psqlDb (db : Option String) (sql : String)
deriving DecidableEq, Repr

def PGUID : String := "postgres"

/-- Python truthiness of a None-or-string value: None and the empty string
are falsy. -/
def truthy : Option String → Bool
  | none => false
  | some s => !(s == "")

def trustLine (name : String) : String := "host all " ++ name ++ " all trust\n"

def md5Line : String := "host all all all md5\n"

/-- The `for user_config in config.users` loop over `add_trust` (lines
261-264), threading the written lines and the `any_trust` flag. -/
def trustFold (users : List PGUser) (acc : List Event × Bool) : List Event × Bool :=
  users.foldl
    (fun acc u =>
      if u.password == some "" then (acc.1 ++ [Event.writeHba (trustLine u.name)], true)
      else acc)
    acc

/-- Lines 251-267: everything appended to pg_hba.conf, plus the final
`any_trust` flag. -/
def hbaSection (config : PGConfig) : List Event × Bool :=
  let acc0 : List Event × Bool :=
    if config.postgres_password == some "" then
      ([Event.writeHba (trustLine "postgres")], true)
    else ([], false)
  let acc1 := trustFold config.users acc0
  (acc1.1 ++ [Event.writeHba md5Line], acc1.2)

def pass_clause (u : PGUser) : String :=
  if truthy u.password then "PASSWORD " ++ sq ++ pyStr u.password ++ sq else ""

def super_clause (u : PGUser) : String :=
  if u.superuser then "SUPERUSER" else ""

def createUserSql (u : PGUser) : String :=
  "CREATE USER \"" ++ u.name ++ "\" WITH " ++ pass_clause u ++ " " ++ super_clause u

def alterUserSql (pw : String) : String :=
  "ALTER USER \"postgres\" WITH SUPERUSER PASSWORD " ++ sq ++ pw ++ sq

def owner_clause (d : PGDatabase) : String :=
  if truthy d.owner then "WITH OWNER \"" ++ pyStr d.owner ++ "\"" else ""

def createDatabaseSql (d : PGDatabase) : String :=
  "CREATE DATABASE \"" ++ pyStr d.name ++ "\" " ++ owner_clause d

def grantSql (d : PGDatabase) : String :=
  "GRANT ALL ON schema public TO \"" ++ pyStr d.owner ++ "\""

def revokeSql : String := "REVOKE ALL ON schema public FROM public"

def alterSystemSql (c : PGDbConf) : String :=
  "ALTER SYSTEM SET " ++ c.name ++ " = \"" ++ c.value ++ "\""

/-- Line 274-275: `if config.postgres_password:` guards the administrative
ALTER, so a None or empty-string slot issues no statement. -/
def alterAdminEvents (config : PGConfig) : List Event :=
  if truthy config.postgres_password then
    [Event.psql (alterUserSql (pyStr config.postgres_password))]
  else []

/-- Lines 285-291: per-database creation, revoke, and optional grant. -/
def dbEvents (d : PGDatabase) : List Event :=
  [Event.psql (createDatabaseSql d), Event.psqlDb d.name revokeSql]
  ++ (if truthy d.owner then [Event.psqlDb d.name (grantSql d)] else [])

def startServerCmd (pgdata : String) : List String :=
  ["pg_ctl", "-D", pgdata, "-o", "-c listen_addresses=" ++ sq ++ "localhost" ++ sq,
   "-w", "start"]

def stopServerCmd (pgdata : String) : List String :=
  ["pg_ctl", "-D", pgdata, "-m", "fast", "-w", "stop"]

/-- Lines 249-298: the first-run provisioning sequence after `load_config`
succeeded, as an ordered event trace. -/
def bootstrapEvents (pgdata : String) (config : PGConfig) : List Event :=
  [Event.checkCall (["initdb", "--username=postgres"] ++ config.init_args)]
  ++ (hbaSection config).1
  ++ (if (hbaSection config).2 then [Event.warn] else [])
  ++ [Event.checkCall (startServerCmd pgdata)]
  ++ alterAdminEvents config
  ++ config.users.map (fun u => Event.psql (createUserSql u))
  ++ [Event.psqlDb (some "postgres") revokeSql]
  ++ config.databases.flatMap dbEvents
  ++ config.db_config.map (fun c => Event.psql (alterSystemSql c))
  ++ [Event.checkCall (stopServerCmd pgdata)]
  ++ [Event.note "\nPostgreSQL init process complete; ready for start up.\n"]

/-- The unconditional directory preparation at the top of `setup`
(lines 237-241), performed before the marker-file check. -/
def setupPrelude (pgdata : String) : List Event :=
  [Event.checkCall ["mkdir", "-p", pgdata],
   Event.call ["chown", "-R", PGUID, pgdata],
   Event.call ["chmod", "700", pgdata]]

/-- `setup()`: `markerPresent` is whether `PGDATA/PG_VERSION` exists. -/
def setup (pgdata : String) (markerPresent : Bool) (env : Env) :
    Except String (List Event) :=
  if markerPresent then
    .ok (setupPrelude pgdata ++ [Event.note "database already created, skipping setup"])
  else
    match load_config env with
    | .error e => .error e
    | .ok config => .ok (setupPrelude pgdata ++ bootstrapEvents pgdata config)

/-- How `main` hands off: privilege-drop re-exec through gosu, run `setup`
then exec the server, or exec the named program directly. -/
inductive MainAction where
  | gosuReexec (argv : List String)
  | setupThenStart (argv : List String)
  | startOnly (argv : List String)
deriving DecidableEq, Repr

/-- Python string indexing `s[i]`: raises IndexError out of range. -/
def str_index (s : String) (i : Nat) : Except String Char :=
  if h : i < s.data.length then .ok (s.data.get ⟨i, h⟩)
  else .error "IndexError: string index out of range"

/-- `main()` up to the irrevocable control transfer (lines 305-321).  Note
line 310 inspects `sys.argv[1][1]`, the SECOND character of the first
argument. -/
def main (uid : Nat) (argv : List String) : Except String MainAction :=
  match argv with
  | a0 :: a1 :: rest =>
    match str_index a1 1 with
    | .error e => .error e
    | .ok c =>
      let tail := if c == '-' then "postgres" :: a1 :: rest else a1 :: rest
      let cmd := if c == '-' then "postgres" else a1
      if cmd == "postgres" && uid == 0 then .ok (.gosuReexec (a0 :: tail))
      else if cmd == "postgres" then .ok (.setupThenStart tail)
      else .ok (.startOnly tail)
  | _ =>
    .error ("No command given. At least " ++ sq ++ "postgres" ++ sq ++
            " must be specified to start the database")

instance {ε α : Type} [DecidableEq ε] [DecidableEq α] : DecidableEq (Except ε α) := fun a b =>
  match a, b with
  | .ok x, .ok y => decidable_of_iff (x = y) (by simp)
  | .error x, .error y => decidable_of_iff (x = y) (by simp)
  | .ok _, .error _ => isFalse (by simp)
  | .error _, .ok _ => isFalse (by simp)

/-- Names declared by the single-user scheme (the value of POSTGRES_USER
when set). -/
def singleUserNames (env : Env) : List String :=
  match file_env env "POSTGRES_USER" none with
  | some u => [u]
  | none => []

/-- The user-name transformation of `add_user_from_multi`. -/
def stripBang (n : String) : String :=
  if pyStartsWith n "!" then pyStrip (pyDrop n 1) else n

/-- The user name declared by one POSTGRES_USERS entry. -/
def entryUserName (spec : String) : String :=
  stripBang ((colonParts spec).headD "")

/-- Names declared by the pipe-delimited multi-scheme, in entry order. -/
def multiUserNames (env : Env) : List String :=
  (pipeEntries ((file_env env "POSTGRES_USERS" (some "")).getD "")).map entryUserName

/-- Names declared by the indexed scheme up to the first unset index
(same fuel convention as `indexed_stage`). -/
def indexedUserNames (env : Env) (fuel : Nat) (i : Nat) : List String :=
  match fuel with
  | 0 => []
  | f + 1 =>
    match file_env env (userKey i) none with
    | none => []
    | some user => user :: indexedUserNames env f (i + 1)

/-- All user names an environment declares, across the three schemes, in
registration order. -/
def declaredUserNames (env : Env) : List String :=
  singleUserNames env ++ multiUserNames env ++ indexedUserNames env (env.length + 1) 0

lemma exbind_ok {α β : Type} {x : Except String α} {f : α → Except String β} {b : β}
    (h : (x >>= f) = .ok b) : ∃ a, x = .ok a ∧ f a = .ok b := by
  cases x with
  | ok a => exact ⟨a, rfl, h⟩
  | error e => exact absurd h (by simp [Bind.bind, Except.bind])

/-- How one resolution step evolves the accumulator: it pushes exactly
`names` (reversed) onto `seen_users`, keeps `seen_users` duplicate-free,
and only ever appends non-postgres entries to `users`. -/
def SeenEvolves (names : List String) (st st' : ResolverState) : Prop :=
  st'.seen_users = names.reverse ++ st.seen_users ∧
  (st.seen_users.Nodup → st'.seen_users.Nodup) ∧
  (∀ u ∈ st'.users, u ∈ st.users ∨ u.name ≠ "postgres")

lemma seenEvolves_self (st : ResolverState) : SeenEvolves [] st st :=
  ⟨by simp, fun h => h, fun _ hu => Or.inl hu⟩

lemma seenEvolves_trans {xs ys : List String} {st st₁ st₂ : ResolverState}
    (h1 : SeenEvolves xs st st₁) (h2 : SeenEvolves ys st₁ st₂) :
    SeenEvolves (xs ++ ys) st st₂ := by
  obtain ⟨e1, n1, u1⟩ := h1
  obtain ⟨e2, n2, u2⟩ := h2
  refine ⟨?_, fun h => n2 (n1 h), fun u hu => ?_⟩
  · rw [e2, e1, List.reverse_append, List.append_assoc]
  · rcases u2 u hu with h | h
    · exact u1 u h
    · exact Or.inr h

lemma add_user_ok {n : String} {p : Option String} {s : Bool} {st st' : ResolverState}
    (h : add_user n p s st = .ok st') :
    n ∉ st.seen_users ∧ st'.seen_users = n :: st.seen_users ∧
      (∀ u ∈ st'.users, u ∈ st.users ∨ u.name ≠ "postgres") := by
  by_cases h1 : n ∈ st.seen_users
  · rw [add_user, if_pos h1] at h
    exact absurd h (by simp)
  · rw [add_user, if_neg h1] at h
    by_cases h2 : n = "postgres"
    · rw [if_pos h2] at h
      cases s with
      | false => exact absurd h (by simp)
      | true =>
        cases h
        exact ⟨h1, by simp, fun u hu => Or.inl hu⟩
    · rw [if_neg h2] at h
      cases h
      refine ⟨h1, by simp, fun u hu => ?_⟩
      simp only [List.mem_append, List.mem_singleton] at hu
      rcases hu with h | h
      · exact Or.inl h
      · subst h; exact Or.inr h2

lemma add_user_evolves {n : String} {p : Option String} {s : Bool} {st st' : ResolverState}
    (h : add_user n p s st = .ok st') : SeenEvolves [n] st st' := by
  obtain ⟨hfresh, hseen, husers⟩ := add_user_ok h
  exact ⟨by simp [hseen], fun hn => by simp [hseen, hfresh, hn], husers⟩

lemma add_database_evolves {name owner : Option String} {st st' : ResolverState}
    (h : add_database name owner st = .ok st') : SeenEvolves [] st st' := by
  by_cases h1 : name = some "postgres"
  · rw [add_database, if_pos h1] at h
    split at h
    · exact absurd h (by simp)
    · cases h; exact seenEvolves_self st
  · rw [add_database, if_neg h1] at h
    split at h
    · exact absurd h (by simp)
    · cases h
      exact ⟨by simp, fun hn => hn, fun u hu => Or.inl hu⟩

lemma add_db_conf_evolves {name value : Option String} {st st' : ResolverState}
    (h : add_db_conf name value st = .ok st') : SeenEvolves [] st st' := by
  unfold add_db_conf at h
  split at h
  · cases h
    exact ⟨by simp, fun hn => hn, fun u hu => Or.inl hu⟩
  · exact absurd h (by simp)

lemma apply2_database_evolves {args : List (Option String)} {st st' : ResolverState}
    (h : apply2 add_database args st = .ok st') : SeenEvolves [] st st' := by
  unfold apply2 at h
  split at h
  · exact add_database_evolves h
  · exact absurd h (by simp)

lemma apply2_db_conf_evolves {args : List (Option String)} {st st' : ResolverState}
    (h : apply2 add_db_conf args st = .ok st') : SeenEvolves [] st st' := by
  unfold apply2 at h
  split at h
  · exact add_db_conf_evolves h
  · exact absurd h (by simp)

lemma fold_nil_evolves {α : Type} {step : ResolverState → α → Except String ResolverState}
    (hstep : ∀ a st st', step st a = .ok st' → SeenEvolves [] st st') :
    ∀ (l : List α) (st st' : ResolverState),
      l.foldlM step st = .ok st' → SeenEvolves [] st st' := by
  intro l
  induction l with
  | nil =>
    intro st st' h
    rw [List.foldlM_nil] at h
    cases h
    exact seenEvolves_self st
  | cons a l ih =>
    intro st st' h
    rw [List.foldlM_cons] at h
    obtain ⟨st₁, h1, h2⟩ := exbind_ok h
    exact seenEvolves_trans (hstep a st st₁ h1) (ih st₁ st' h2)

lemma userEntry_evolves {spec : String} {st st' : ResolverState}
    (h : apply2 add_user_from_multi (rpad ((colonParts spec).map some) 2 none) st = .ok st') :
    SeenEvolves [entryUserName spec] st st' := by
  rcases hps : colonParts spec with _ | ⟨p, _ | ⟨q, _ | ⟨r, rs⟩⟩⟩ <;> rw [hps] at h
  · have h2 : (Except.error "TypeError: NoneType has no attribute startswith" :
        Except String ResolverState) = .ok st' := h
    cases h2
  · have hname : entryUserName spec = stripBang p := by simp [entryUserName, hps]
    have h0 : (if pyStartsWith p "!" then add_user (pyStrip (pyDrop p 1)) none true st
               else add_user p none false st) = .ok st' := h
    rw [hname]
    by_cases hb : pyStartsWith p "!"
    · rw [if_pos hb] at h0
      simpa [stripBang, hb] using add_user_evolves h0
    · rw [if_neg hb] at h0
      simpa [stripBang, hb] using add_user_evolves h0
  · have hname : entryUserName spec = stripBang p := by simp [entryUserName, hps]
    have h0 : (if pyStartsWith p "!" then add_user (pyStrip (pyDrop p 1)) (some q) true st
               else add_user p (some q) false st) = .ok st' := h
    rw [hname]
    by_cases hb : pyStartsWith p "!"
    · rw [if_pos hb] at h0
      simpa [stripBang, hb] using add_user_evolves h0
    · rw [if_neg hb] at h0
      simpa [stripBang, hb] using add_user_evolves h0
  · have h2 : (Except.error "TypeError: wrong number of arguments" :
        Except String ResolverState) = .ok st' := h
    cases h2

lemma users_fold_evolves :
    ∀ (specs : List String) (st st' : ResolverState),
      specs.foldlM
        (fun st spec => apply2 add_user_from_multi (rpad ((colonParts spec).map some) 2 none) st)
        st = .ok st' →
      SeenEvolves (specs.map entryUserName) st st' := by
  intro specs
  induction specs with
  | nil =>
    intro st st' h
    rw [List.foldlM_nil] at h
    cases h
    exact seenEvolves_self st
  | cons spec specs ih =>
    intro st st' h
    rw [List.foldlM_cons] at h
    obtain ⟨st₁, h1, h2⟩ := exbind_ok h
    have := seenEvolves_trans (userEntry_evolves h1) (ih st₁ st' h2)
    simpa using this

lemma multi_users_evolves {env : Env} {st st' : ResolverState}
    (h : double_split_apply env "POSTGRES_USERS" add_user_from_multi 2 st = .ok st') :
    SeenEvolves (multiUserNames env) st st' := by
  unfold double_split_apply at h
  exact users_fold_evolves _ _ _ h

lemma multi_dbs_evolves {env : Env} {st st' : ResolverState}
    (h : double_split_apply env "POSTGRES_DATABASES" add_database 2 st = .ok st') :
    SeenEvolves [] st st' := by
  unfold double_split_apply at h
  exact fold_nil_evolves (fun a st st' ha => apply2_database_evolves ha) _ _ _ h

lemma configs_evolves {env : Env} {st st' : ResolverState}
    (h : double_split_apply env "POSTGRES_CONFIGS" add_db_conf 0 st = .ok st') :
    SeenEvolves [] st st' := by
  unfold double_split_apply at h
  exact fold_nil_evolves (fun a st st' ha => apply2_db_conf_evolves ha) _ _ _ h

lemma single_evolves {env : Env} {st st' : ResolverState}
    (h : single_stage env st = .ok st') :
    SeenEvolves (singleUserNames env) st st' := by
  unfold single_stage at h
  rcases hu : file_env env "POSTGRES_USER" none with _ | u <;> simp only [hu] at h
  · have hnames : singleUserNames env = [] := by simp [singleUserNames, hu]
    rw [hnames]
    rcases hd : file_env env "POSTGRES_DATABASE" none with _ | d <;> simp only [hd] at h
    · cases h; exact seenEvolves_self st
    · exact add_database_evolves h
  · have hnames : singleUserNames env = [u] := by simp [singleUserNames, hu]
    rw [hnames]
    rcases ha : add_user u (file_env env "POSTGRES_PASSWORD" none) true st with e | st₁ <;>
      simp only [ha] at h
    · cases h
    · have h1 := add_user_evolves ha
      rcases hd : file_env env "POSTGRES_DATABASE" none with _ | d <;> simp only [hd] at h
      · cases h; simpa using h1
      · simpa using seenEvolves_trans h1 (add_database_evolves h)

lemma indexed_evolves {env : Env} :
    ∀ (fuel : Nat) (i : Nat) (st st' : ResolverState),
      indexed_stage env fuel i st = .ok st' →
      SeenEvolves (indexedUserNames env fuel i) st st' := by
  intro fuel
  induction fuel with
  | zero =>
    intro i st st' h
    unfold indexed_stage at h
    cases h
    exact seenEvolves_self st
  | succ f ih =>
    intro i st st' h
    unfold indexed_stage at h
    rcases hu : file_env env (userKey i) none with _ | user <;> simp only [hu] at h
    · cases h
      have hnames : indexedUserNames env (f + 1) i = [] := by
        simp only [indexedUserNames, hu]
      rw [hnames]
      exact seenEvolves_self st
    · have hnames : indexedUserNames env (f + 1) i = user :: indexedUserNames env f (i + 1) := by
        conv_lhs => rw [indexedUserNames]
        rw [hu]
      rw [hnames]
      rcases ha : add_user user (file_env env (pwKey i) none)
          (file_env env (superKey i) none == some "1") st with e | st₁ <;> simp only [ha] at h
      · cases h
      · rcases hf : (pipeEntries ((file_env env (dbsKey i) (some "")).getD "")).foldlM
            (fun st db => add_database (some db) (some user) st) st₁ with e | st₂ <;>
          simp only [hf] at h
        · cases h
        · have e1 := add_user_evolves ha
          have e2 := fold_nil_evolves (fun a st st' hd => add_database_evolves hd) _ _ _ hf
          have e3 := ih (i + 1) st₂ st' h
          simpa using seenEvolves_trans e1 (seenEvolves_trans e2 e3)

/-- Composition over the whole resolver: a successful `load_config` pushed
exactly the declared user names (in order) through `add_user`. -/
lemma load_config_evolves {env : Env} {cfg : PGConfig}
    (h : load_config env = .ok cfg) :
    ∃ st : ResolverState,
      SeenEvolves (declaredUserNames env) initialState st ∧ cfg.users = st.users := by
  unfold load_config at h
  rcases h0 : double_split_apply env "POSTGRES_CONFIGS" add_db_conf 0 initialState
    with e | st₀ <;> simp only [h0] at h
  · cases h
  rcases h1 : single_stage env st₀ with e | st₁ <;> simp only [h1] at h
  · cases h
  rcases h2 : double_split_apply env "POSTGRES_USERS" add_user_from_multi 2 st₁
    with e | st₂ <;> simp only [h2] at h
  · cases h
  rcases h3 : double_split_apply env "POSTGRES_DATABASES" add_database 2 st₂
    with e | st₃ <;> simp only [h3] at h
  · cases h
  rcases h4 : indexed_stage env (env.length + 1) 0 st₃ with e | st₄ <;> simp only [h4] at h
  · cases h
  refine ⟨st₄, ?_, by cases h; rfl⟩
  have e01 := seenEvolves_trans (configs_evolves h0) (single_evolves h1)
  have e02 := seenEvolves_trans e01 (multi_users_evolves h2)
  have e03 := seenEvolves_trans e02 (multi_dbs_evolves h3)
  have e04 := seenEvolves_trans e03 (indexed_evolves _ _ _ _ h4)
  simpa [declaredUserNames] using e04

/-- The skip trace of `setup` when the marker file is already present. -/
def skipTrace (pgdata : String) : List Event :=
  setupPrelude pgdata ++ [Event.note "database already created, skipping setup"]

/-- Provisioning calls in the sense of the spec: storage initialization,
server start/stop, SQL execution, access-control writes. -/
def provisioningEvent : Event → Bool
  | .checkCall cmd => cmd.headD "" == "initdb" || cmd.headD "" == "pg_ctl"
  | .psql _ => true
  | .psqlDb _ _ => true
  | .writeHba _ => true
  | .warn => false
  | .call _ => false
  | .note _ => false

/-- Any external call that mutates state outside the process: subprocess
invocations, file writes, SQL. -/
def externalMutatingCall : Event → Bool
  | .checkCall _ => true
  | .call _ => true
  | .writeHba _ => true
  | .psql _ => true
  | .psqlDb _ _ => true
  | .warn => false
  | .note _ => false

def envC1 : Env :=
  [("POSTGRES_USER", "alice"), ("POSTGRES_PASSWORD", "secret"), ("POSTGRES_DATABASE", "foo")]

/-- Claim C1: with POSTGRES_USER=alice, POSTGRES_PASSWORD=secret and
POSTGRES_DATABASE=foo, the resolver registers a database named alice (the
value of POSTGRES_USER), not foo (the value of POSTGRES_DATABASE), although
the primary-database key resolved to the set value foo.  This exhibits the
divergence from the claim that the registered database name equals the
primary-database value. -/
theorem C1_database_named_after_user :
    load_config envC1 =
      .ok ⟨[], [], none, [⟨"alice", some "secret", true⟩], [⟨some "alice", some "alice"⟩]⟩ ∧
    file_env envC1 "POSTGRES_DATABASE" none = some "foo" ∧
    (PGDatabase.mk (some "alice") (some "alice")).name ≠ some "foo" := by
  refine ⟨by decide, by decide, by decide⟩

def envC3 : Env := [("POSTGRES_USERS", "alice:secret|!bob:"), ("POSTGRES_DATABASES", "d1:alice|d2")]

def cfgC3 : PGConfig :=
  ⟨[], [], none,
   [⟨"alice", some "secret", false⟩, ⟨"bob", some "", true⟩],
   [⟨some "d1", some "alice"⟩, ⟨some "d2", none⟩]⟩

/-- Claim C3 counterexample: on the claimed input, the resolver gives bob
the empty-string password (the entry `!bob:` has a present but empty
password segment), not the absent password `None` the claim states. -/
theorem C3_cex :
    load_config envC3 = .ok cfgC3 ∧
    cfgC3.users.map PGUser.password = [some "secret", some ""] ∧
    cfgC3.users.map PGUser.password ≠ [some "secret", none] := by
  refine ⟨by decide, by decide, by decide⟩

/-- Claim C3 (amended): POSTGRES_USERS=alice:secret|!bob: with
POSTGRES_DATABASES=d1:alice|d2 resolves to users
[(alice, "secret", not superuser), (bob, "" empty password, superuser)] and
databases [(d1 owned by alice), (d2 unowned)], in that order. -/
theorem C3_example_resolution : load_config envC3 = .ok cfgC3 := by decide

/-- Claim C5 (amended): when the initialization marker is present, `setup`
performs no provisioning call (no storage initialization, no
access-control write, no server start/stop, no SQL) — but it still runs
the unconditional data-directory preparation (mkdir/chown/chmod), which
precedes the marker check in the source. -/
theorem C5_marker_skip :
    ∀ (pgdata : String) (env : Env),
      setup pgdata true env = .ok (skipTrace pgdata) ∧
      (skipTrace pgdata).all (fun e => !(provisioningEvent e)) = true := by
  intro pgdata env
  exact ⟨rfl, rfl⟩

/-- Claim C5 counterexample: even with the marker present, `setup` issues
external mutating calls (the mkdir/chown/chmod directory preparation), so
the trace is not free of external mutating calls. -/
theorem C5_cex :
    setup "d" true [] = .ok (skipTrace "d") ∧
    Event.checkCall ["mkdir", "-p", "d"] ∈ skipTrace "d" ∧
    externalMutatingCall (Event.checkCall ["mkdir", "-p", "d"]) = true := by
  refine ⟨by decide, by decide, by decide⟩

def envC6 : Env :=
  [("POSTGRES_USER_0", "carol"), ("POSTGRES_DATABASES_0", "x|y"), ("POSTGRES_USER_2", "dave")]

def cfgC6 : PGConfig :=
  ⟨[], [], none, [⟨"carol", none, false⟩],
   [⟨some "x", some "carol"⟩, ⟨some "y", some "carol"⟩]⟩

/-- Claim C6: the indexed scheme stops at the first index whose user-name
key is unset, leaving the state untouched from that point on (everything
at higher indices is ignored); concretely, POSTGRES_USER_0=carol with
POSTGRES_DATABASES_0=x|y and POSTGRES_USER_2=dave (no POSTGRES_USER_1)
resolves only carol with databases x and y owned by carol — dave is
silently ignored. -/
theorem C6_gap_termination :
    (∀ (env : Env) (f i : Nat) (st : ResolverState),
        file_env env (userKey i) none = none → indexed_stage env (f + 1) i st = .ok st) ∧
    load_config envC6 = .ok cfgC6 := by
  constructor
  · intro env f i st h
    unfold indexed_stage
    simp only [h]
  · decide

/-- Witness for C6 at a concrete unset index. -/
theorem C6_witness :
    file_env [] (userKey 0) none = none ∧ indexed_stage [] 1 0 initialState = .ok initialState :=
  ⟨rfl, C6_gap_termination.1 [] 0 0 initialState rfl⟩

/-- Claim C7: a successfully resolved configuration never lists the
administrative account name among its users; a fresh registration of that
name (necessarily with the superuser flag) routes its password to the
dedicated administrative-password slot, leaving the users list untouched;
and registering `postgres` with the superuser flag false is always a fatal
error. -/
theorem C7_postgres_reserved :
    (∀ (env : Env) (cfg : PGConfig), load_config env = .ok cfg →
        cfg.users.all (fun u => !(u.name == "postgres")) = true) ∧
    (∀ (st : ResolverState) (p : Option String),
        "postgres" ∉ st.seen_users →
        add_user "postgres" p true st =
          .ok { st with postgres_password := p,
                        seen_users := "postgres" :: st.seen_users }) ∧
    (∀ (st : ResolverState) (p : Option String),
        ∃ msg, add_user "postgres" p false st = .error msg) := by
  refine ⟨?_, ?_, ?_⟩
  · intro env cfg h
    obtain ⟨st, ⟨_, _, husers⟩, hu⟩ := load_config_evolves h
    rw [hu, List.all_eq_true]
    intro u humem
    rcases husers u humem with h' | h'
    · simp [initialState] at h'
    · simpa using h'
  · intro st p h1
    rw [add_user, if_neg h1, if_pos rfl]
    rfl
  · intro st p
    by_cases h1 : "postgres" ∈ st.seen_users
    · exact ⟨_, by rw [add_user, if_pos h1]⟩
    · exact ⟨"cannot change postgres to a non-superuser",
        by rw [add_user, if_neg h1, if_pos rfl]; rfl⟩

/-- Witness for C7 at a concrete resolving environment and state. -/
theorem C7_witness :
    (PGConfig.mk [] [] none [⟨"alice", none, true⟩] []).users.all
        (fun u => !(u.name == "postgres")) = true ∧
    add_user "postgres" (some "secret") true initialState =
      .ok { initialState with postgres_password := some "secret",
                              seen_users := "postgres" :: initialState.seen_users } ∧
    (∃ msg, add_user "postgres" (some "pw") false initialState = .error msg) :=
  ⟨C7_postgres_reserved.1 [("POSTGRES_USER", "alice")] _ (by decide),
   C7_postgres_reserved.2.1 initialState (some "secret") (by decide),
   C7_postgres_reserved.2.2 initialState (some "pw")⟩

/-- Claim C8: an environment that declares the same user name twice (through
any combination of the three schemes) never resolves successfully, and the
second registration of a name already seen is precisely the
duplicate-registration error. -/
theorem C8_duplicate_user_fatal :
    (∀ env : Env, ¬ (declaredUserNames env).Nodup → (load_config env).isOk = false) ∧
    (∀ (st : ResolverState) (n : String) (p : Option String) (s : Bool),
        n ∈ st.seen_users →
        add_user n p s st = .error ("user " ++ n ++ " registered twice")) := by
  constructor
  · intro env hdup
    cases hlc : load_config env with
    | error e => rfl
    | ok cfg =>
      exfalso
      obtain ⟨st, ⟨hseen, hnd, _⟩, _⟩ := load_config_evolves hlc
      apply hdup
      have hn : st.seen_users.Nodup := hnd (by simp [initialState])
      rw [hseen] at hn
      simp only [initialState, List.append_nil] at hn
      exact List.nodup_reverse.mp hn
  · intro st n p s hmem
    rw [add_user, if_pos hmem]

/-- Witness for C8: a duplicated multi-scheme declaration fails, and a
direct duplicate registration yields the duplicate error. -/
theorem C8_witness :
    (load_config [("POSTGRES_USERS", "a|a")]).isOk = false ∧
    add_user "a" none false ⟨["a"], [], [], none, [], []⟩ =
      .error ("user " ++ "a" ++ " registered twice") :=
  ⟨C8_duplicate_user_fatal.1 _ (by decide),
   C8_duplicate_user_fatal.2 ⟨["a"], [], [], none, [], []⟩ "a" none false (by decide)⟩

/-- Claim C10: dispatching on a single-character first argument crashes with
an unhandled IndexError, because line 310 inspects the second character
`sys.argv[1][1]` of the first argument. -/
theorem C10_single_char_crash :
    main 1000 ["docker-entrypoint.py", "w"] =
      .error "IndexError: string index out of range" := by
  decide

def hbaOf : Event → Option String
  | .writeHba s => some s
  | _ => none

/-- The lines appended to pg_hba.conf within a trace, in order. -/
def hbaWrites (evs : List Event) : List String := evs.filterMap hbaOf

lemma trustFold_cons (u : PGUser) (us : List PGUser) (acc : List Event × Bool) :
    trustFold (u :: us) acc =
      trustFold us
        (if u.password == some "" then (acc.1 ++ [Event.writeHba (trustLine u.name)], true)
         else acc) := rfl

lemma trustFold_fst (us : List PGUser) :
    ∀ acc : List Event × Bool,
      (trustFold us acc).1 =
        acc.1 ++ (us.filter (fun u => u.password == some "")).map
          (fun u => Event.writeHba (trustLine u.name)) := by
  induction us with
  | nil => intro acc; simp [trustFold]
  | cons u us ih =>
    intro acc
    rw [trustFold_cons]
    by_cases hp : u.password == some ""
    · rw [if_pos hp, ih]
      simp [List.filter_cons, hp]
    · rw [if_neg hp, ih]
      simp only [List.filter_cons]
      rw [if_neg (by simpa using hp)]

lemma trustFold_snd (us : List PGUser) :
    ∀ acc : List Event × Bool,
      (trustFold us acc).2 = (acc.2 || us.any (fun u => u.password == some "")) := by
  induction us with
  | nil => intro acc; simp [trustFold]
  | cons u us ih =>
    intro acc
    rw [trustFold_cons]
    by_cases hp : u.password == some ""
    · rw [if_pos hp, ih]
      simp [List.any_cons, hp]
    · rw [if_neg hp, ih]
      simp only [List.any_cons]
      rw [show (u.password == some "") = false by simpa using hp]
      simp

lemma hbaSection_fst (config : PGConfig) :
    (hbaSection config).1 =
      (((if config.postgres_password = some "" then ["postgres"] else []) ++
          (config.users.filter (fun u => u.password == some "")).map PGUser.name).map
        (fun n => Event.writeHba (trustLine n))) ++ [Event.writeHba md5Line] := by
  unfold hbaSection
  by_cases hp : config.postgres_password = some ""
  · simp [hp, trustFold_fst, List.map_map]
  · simp only [show (config.postgres_password == some "") = false by simpa using hp]
    simp [trustFold_fst, List.map_map, hp]

lemma hbaSection_snd (config : PGConfig) :
    (hbaSection config).2 =
      ((config.postgres_password == some "") || config.users.any (fun u => u.password == some "")) := by
  unfold hbaSection
  cases hb : config.postgres_password == some "" <;> simp [hb, trustFold_snd]

lemma hbaWrites_trust_map (l : List String) :
    hbaWrites (l.map (fun n => Event.writeHba (trustLine n))) = l.map trustLine := by
  induction l with
  | nil => rfl
  | cons n l ih =>
    unfold hbaWrites at ih ⊢
    rw [List.map_cons, List.filterMap_cons]
    simp only [hbaOf]
    rw [ih, List.map_cons]

lemma hbaWrites_users_map (l : List PGUser) :
    hbaWrites (l.map (fun u => Event.psql (createUserSql u))) = [] := by
  induction l with
  | nil => rfl
  | cons u l ih => simp [hbaWrites, hbaOf, List.filterMap_cons, ih]

lemma hbaWrites_conf_map (l : List PGDbConf) :
    hbaWrites (l.map (fun c => Event.psql (alterSystemSql c))) = [] := by
  induction l with
  | nil => rfl
  | cons c l ih => simp [hbaWrites, hbaOf, List.filterMap_cons, ih]

lemma hbaWrites_db_events (d : PGDatabase) : hbaWrites (dbEvents d) = [] := by
  unfold dbEvents
  cases ht : truthy d.owner <;> simp [hbaWrites, hbaOf, List.filterMap_cons, ht]

lemma hbaWrites_db_flat (l : List PGDatabase) : hbaWrites (l.flatMap dbEvents) = [] := by
  induction l with
  | nil => rfl
  | cons d l ih =>
    have hd := hbaWrites_db_events d
    unfold hbaWrites at hd ih ⊢
    rw [List.flatMap_cons, List.filterMap_append, hd, ih]
    rfl

lemma hbaWrites_alter_admin (config : PGConfig) : hbaWrites (alterAdminEvents config) = [] := by
  unfold alterAdminEvents
  cases ht : truthy config.postgres_password <;> simp [hbaWrites, hbaOf]

lemma hbaWrites_warn_if (b : Bool) :
    hbaWrites (if b then [Event.warn] else []) = [] := by
  cases b <;> rfl

lemma warn_not_mem_db_events (d : PGDatabase) : Event.warn ∉ dbEvents d := by
  unfold dbEvents
  cases truthy d.owner <;> simp

lemma warn_not_mem_alter (config : PGConfig) : Event.warn ∉ alterAdminEvents config := by
  unfold alterAdminEvents
  cases truthy config.postgres_password <;> simp

/-- Claim C4: during first-run bootstrap a trust rule is appended exactly
for the accounts (administrative or user) whose password is the empty
string, all trust rules precede the single catch-all md5 rule, and the
security warning is emitted iff at least one trust rule was appended. -/
theorem C4_trust_rules :
    ∀ (pgdata : String) (config : PGConfig),
      hbaWrites (bootstrapEvents pgdata config) =
        ((if config.postgres_password = some "" then ["postgres"] else []) ++
          (config.users.filter (fun u => u.password == some "")).map PGUser.name).map trustLine
        ++ [md5Line] ∧
      (Event.warn ∈ bootstrapEvents pgdata config ↔
        (config.postgres_password = some "" ∨ ∃ u ∈ config.users, u.password = some "")) := by
  intro pgdata config
  constructor
  · unfold bootstrapEvents hbaWrites
    simp only [List.filterMap_append]
    rw [hbaSection_fst]
    rw [List.filterMap_append]
    have h1 : List.filterMap hbaOf
        [Event.checkCall (["initdb", "--username=postgres"] ++ config.init_args)] = [] := rfl
    have h2 := hbaWrites_trust_map
      ((if config.postgres_password = some "" then ["postgres"] else []) ++
        (config.users.filter (fun u => u.password == some "")).map PGUser.name)
    unfold hbaWrites at h2
    rw [h1, h2]
    have h3 := hbaWrites_warn_if (hbaSection config).2
    have h4 := hbaWrites_alter_admin config
    have h5 := hbaWrites_users_map config.users
    have h6 := hbaWrites_db_flat config.databases
    have h7 := hbaWrites_conf_map config.db_config
    unfold hbaWrites at h3 h4 h5 h6 h7
    rw [h3, h4, h5, h6, h7]
    simp [hbaOf]
  · have hmem : Event.warn ∈ bootstrapEvents pgdata config ↔ (hbaSection config).2 = true := by
      cases hb : (hbaSection config).2
      · constructor
        · intro h
          exfalso
          revert h
          simp [bootstrapEvents, hb, hbaSection_fst, warn_not_mem_db_events,
                warn_not_mem_alter, List.mem_flatMap]
        · intro h
          cases h
      · constructor
        · intro _
          rfl
        · intro _
          simp [bootstrapEvents, hb]
    rw [hmem, hbaSection_snd]
    simp [List.any_eq_true]

/-- Select psql statements whose first `n` characters are `pre`. -/
def psqlPrefixed (n : Nat) (pre : List Char) : Event → Option String
  | .psql sql => if sql.data.take n = pre then some sql else none
  | _ => none

/-- The CREATE USER statements issued in a trace, in order. -/
def createUserStatements (evs : List Event) : List String :=
  evs.filterMap (psqlPrefixed 12 ("CREATE USER ").data)

/-- The ALTER USER statements issued in a trace, in order. -/
def alterUserStatements (evs : List Event) : List String :=
  evs.filterMap (psqlPrefixed 11 ("ALTER USER ").data)

lemma createUserSql_take12 (u : PGUser) :
    (createUserSql u).data.take 12 = ("CREATE USER ").data := by
  unfold createUserSql
  simp only [String.data_append, List.append_assoc]
  rw [List.take_append_of_le_length (by decide)]
  decide

lemma createUserSql_take11 (u : PGUser) :
    (createUserSql u).data.take 11 = ("CREATE USER").data := by
  unfold createUserSql
  simp only [String.data_append, List.append_assoc]
  rw [List.take_append_of_le_length (by decide)]
  decide

lemma alterUserSql_take12 (pw : String) :
    (alterUserSql pw).data.take 12 = ("ALTER USER \"").data := by
  unfold alterUserSql
  simp only [String.data_append, List.append_assoc]
  rw [List.take_append_of_le_length (by decide)]
  decide

lemma alterUserSql_take11 (pw : String) :
    (alterUserSql pw).data.take 11 = ("ALTER USER ").data := by
  unfold alterUserSql
  simp only [String.data_append, List.append_assoc]
  rw [List.take_append_of_le_length (by decide)]
  decide

lemma createDatabaseSql_take12 (d : PGDatabase) :
    (createDatabaseSql d).data.take 12 = ("CREATE DATAB").data := by
  unfold createDatabaseSql
  simp only [String.data_append, List.append_assoc]
  rw [List.take_append_of_le_length (by decide)]
  decide

lemma createDatabaseSql_take11 (d : PGDatabase) :
    (createDatabaseSql d).data.take 11 = ("CREATE DATA").data := by
  unfold createDatabaseSql
  simp only [String.data_append, List.append_assoc]
  rw [List.take_append_of_le_length (by decide)]
  decide

lemma alterSystemSql_take12 (c : PGDbConf) :
    (alterSystemSql c).data.take 12 = ("ALTER SYSTEM").data := by
  unfold alterSystemSql
  simp only [String.data_append, List.append_assoc]
  rw [List.take_append_of_le_length (by decide)]
  decide

lemma alterSystemSql_take11 (c : PGDbConf) :
    (alterSystemSql c).data.take 11 = ("ALTER SYSTE").data := by
  unfold alterSystemSql
  simp only [String.data_append, List.append_assoc]
  rw [List.take_append_of_le_length (by decide)]
  decide

lemma pp12_createUser (u : PGUser) :
    psqlPrefixed 12 ("CREATE USER ").data (Event.psql (createUserSql u)) =
      some (createUserSql u) := by
  show (if (createUserSql u).data.take 12 = ("CREATE USER ").data
        then some (createUserSql u) else none) = some (createUserSql u)
  rw [createUserSql_take12, if_pos rfl]

lemma pp12_alterUser (pw : String) :
    psqlPrefixed 12 ("CREATE USER ").data (Event.psql (alterUserSql pw)) = none := by
  show (if (alterUserSql pw).data.take 12 = ("CREATE USER ").data
        then some (alterUserSql pw) else none) = none
  rw [alterUserSql_take12, if_neg (by decide)]

lemma pp12_createDatabase (d : PGDatabase) :
    psqlPrefixed 12 ("CREATE USER ").data (Event.psql (createDatabaseSql d)) = none := by
  show (if (createDatabaseSql d).data.take 12 = ("CREATE USER ").data
        then some (createDatabaseSql d) else none) = none
  rw [createDatabaseSql_take12, if_neg (by decide)]

lemma pp12_alterSystem (c : PGDbConf) :
    psqlPrefixed 12 ("CREATE USER ").data (Event.psql (alterSystemSql c)) = none := by
  show (if (alterSystemSql c).data.take 12 = ("CREATE USER ").data
        then some (alterSystemSql c) else none) = none
  rw [alterSystemSql_take12, if_neg (by decide)]

lemma pp11_alterUser (pw : String) :
    psqlPrefixed 11 ("ALTER USER ").data (Event.psql (alterUserSql pw)) =
      some (alterUserSql pw) := by
  show (if (alterUserSql pw).data.take 11 = ("ALTER USER ").data
        then some (alterUserSql pw) else none) = some (alterUserSql pw)
  rw [alterUserSql_take11, if_pos rfl]

lemma pp11_createUser (u : PGUser) :
    psqlPrefixed 11 ("ALTER USER ").data (Event.psql (createUserSql u)) = none := by
  show (if (createUserSql u).data.take 11 = ("ALTER USER ").data
        then some (createUserSql u) else none) = none
  rw [createUserSql_take11, if_neg (by decide)]

lemma pp11_createDatabase (d : PGDatabase) :
    psqlPrefixed 11 ("ALTER USER ").data (Event.psql (createDatabaseSql d)) = none := by
  show (if (createDatabaseSql d).data.take 11 = ("ALTER USER ").data
        then some (createDatabaseSql d) else none) = none
  rw [createDatabaseSql_take11, if_neg (by decide)]

lemma pp11_alterSystem (c : PGDbConf) :
    psqlPrefixed 11 ("ALTER USER ").data (Event.psql (alterSystemSql c)) = none := by
  show (if (alterSystemSql c).data.take 11 = ("ALTER USER ").data
        then some (alterSystemSql c) else none) = none
  rw [alterSystemSql_take11, if_neg (by decide)]

lemma pp_trust_map (n : Nat) (pre : List Char) (l : List String) :
    (l.map (fun nm => Event.writeHba (trustLine nm))).filterMap (psqlPrefixed n pre) = [] := by
  induction l with
  | nil => rfl
  | cons x l ih =>
    rw [List.map_cons, List.filterMap_cons]
    exact ih

lemma pp_warn_if (n : Nat) (pre : List Char) (b : Bool) :
    (if b then [Event.warn] else []).filterMap (psqlPrefixed n pre) = [] := by
  cases b <;> rfl

lemma cus_users_map (l : List PGUser) :
    (l.map (fun u => Event.psql (createUserSql u))).filterMap
      (psqlPrefixed 12 ("CREATE USER ").data) = l.map createUserSql := by
  induction l with
  | nil => rfl
  | cons u l ih =>
    rw [List.map_cons, List.filterMap_cons, pp12_createUser, ih]
    rfl

lemma cus_conf_map (l : List PGDbConf) :
    (l.map (fun c => Event.psql (alterSystemSql c))).filterMap
      (psqlPrefixed 12 ("CREATE USER ").data) = [] := by
  induction l with
  | nil => rfl
  | cons c l ih =>
    rw [List.map_cons, List.filterMap_cons, pp12_alterSystem, ih]

lemma cus_db_events (d : PGDatabase) :
    (dbEvents d).filterMap (psqlPrefixed 12 ("CREATE USER ").data) = [] := by
  unfold dbEvents
  cases htr : truthy d.owner <;>
    (rw [List.filterMap_append, List.filterMap_cons, pp12_createDatabase]; rfl)

lemma cus_db_flat (l : List PGDatabase) :
    (l.flatMap dbEvents).filterMap (psqlPrefixed 12 ("CREATE USER ").data) = [] := by
  induction l with
  | nil => rfl
  | cons d l ih =>
    rw [List.flatMap_cons, List.filterMap_append, cus_db_events d, ih]
    rfl

lemma cus_alter_admin (config : PGConfig) :
    (alterAdminEvents config).filterMap (psqlPrefixed 12 ("CREATE USER ").data) = [] := by
  unfold alterAdminEvents
  cases htr : truthy config.postgres_password
  · rfl
  · rw [if_pos rfl, List.filterMap_cons, pp12_alterUser]
    rfl

lemma aus_users_map (l : List PGUser) :
    (l.map (fun u => Event.psql (createUserSql u))).filterMap
      (psqlPrefixed 11 ("ALTER USER ").data) = [] := by
  induction l with
  | nil => rfl
  | cons u l ih =>
    rw [List.map_cons, List.filterMap_cons, pp11_createUser, ih]

lemma aus_conf_map (l : List PGDbConf) :
    (l.map (fun c => Event.psql (alterSystemSql c))).filterMap
      (psqlPrefixed 11 ("ALTER USER ").data) = [] := by
  induction l with
  | nil => rfl
  | cons c l ih =>
    rw [List.map_cons, List.filterMap_cons, pp11_alterSystem, ih]

lemma aus_db_events (d : PGDatabase) :
    (dbEvents d).filterMap (psqlPrefixed 11 ("ALTER USER ").data) = [] := by
  unfold dbEvents
  cases htr : truthy d.owner <;>
    (rw [List.filterMap_append, List.filterMap_cons, pp11_createDatabase]; rfl)

lemma aus_db_flat (l : List PGDatabase) :
    (l.flatMap dbEvents).filterMap (psqlPrefixed 11 ("ALTER USER ").data) = [] := by
  induction l with
  | nil => rfl
  | cons d l ih =>
    rw [List.flatMap_cons, List.filterMap_append, aus_db_events d, ih]
    rfl

lemma aus_alter_admin (config : PGConfig) :
    (alterAdminEvents config).filterMap (psqlPrefixed 11 ("ALTER USER ").data) =
      (if truthy config.postgres_password
       then [alterUserSql (pyStr config.postgres_password)] else []) := by
  unfold alterAdminEvents
  cases htr : truthy config.postgres_password
  · rfl
  · rw [if_pos rfl, List.filterMap_cons, pp11_alterUser]
    rfl

/-- Claim C2 counterexample: a user whose password is the empty string (not
absent) gets an empty password clause string, i.e. no PASSWORD clause at
all in its CREATE USER statement, because line 278 tests Python truthiness
of the password rather than comparing against None. -/
theorem C2_cex :
    pass_clause ⟨"u", some "", false⟩ = "" ∧
    createUserSql ⟨"u", some "", false⟩ = "CREATE USER \"u\" WITH  " ∧
    (PGUser.mk "u" (some "") false).password ≠ none := by
  refine ⟨by decide, by decide, by decide⟩

/-- Claim C2 (amended): during first-run bootstrap the CREATE USER
statements issued are exactly one per resolved user, in declared order, and
a statement carries a PASSWORD clause iff the user's password is truthy —
present and non-empty.  Both an absent password and an empty-string
password yield no PASSWORD clause (the empty-string case is covered by a
trust rule instead). -/
theorem C2_password_clause :
    ∀ (pgdata : String) (config : PGConfig),
      createUserStatements (bootstrapEvents pgdata config) = config.users.map createUserSql ∧
      ∀ u : PGUser, pass_clause u ≠ "" ↔ (u.password ≠ none ∧ u.password ≠ some "") := by
  intro pgdata config
  constructor
  · unfold bootstrapEvents createUserStatements
    simp only [List.filterMap_append]
    rw [hbaSection_fst, List.filterMap_append]
    have h2 := pp_trust_map 12 ("CREATE USER ").data
      ((if config.postgres_password = some "" then ["postgres"] else []) ++
        (config.users.filter (fun u => u.password == some "")).map PGUser.name)
    rw [h2, pp_warn_if, cus_alter_admin, cus_users_map, cus_db_flat, cus_conf_map]
    simp [psqlPrefixed]
  · intro u
    rcases hp : u.password with _ | s
    · simp [pass_clause, truthy, hp]
    · by_cases hs : s = ""
      · subst hs
        simp [pass_clause, truthy, hp]
      · have hb : (s == "") = false := by simpa using hs
        simp only [pass_clause, truthy, hp, hb, Bool.not_false, if_true, ne_eq,
          Option.some.injEq, hs, not_false_iff, and_true, true_iff, pyStr]
        constructor
        · intro _ hn
          cases hn
        · intro _ hcontra
          have hd := congrArg String.data hcontra
          simp [String.data_append] at hd

/-- Claim C9 counterexample: an empty-string administrative password is not
absent, yet no ALTER USER statement is issued for it (line 274 tests Python
truthiness, so the empty string is skipped). -/
theorem C9_cex :
    alterUserStatements (bootstrapEvents "d" ⟨[], [], some "", [], []⟩) = [] ∧
    (PGConfig.mk [] [] (some "") [] []).postgres_password ≠ none := by
  refine ⟨by decide, by decide⟩

/-- Claim C9 (amended): during first-run bootstrap, exactly one ALTER USER
statement is issued — the one that sets the administrative password while
re-asserting SUPERUSER — iff the resolved administrative password is
truthy (present and non-empty); an absent or empty-string slot issues no
ALTER. -/
theorem C9_admin_alter :
    ∀ (pgdata : String) (config : PGConfig),
      alterUserStatements (bootstrapEvents pgdata config) =
        (if truthy config.postgres_password
         then [alterUserSql (pyStr config.postgres_password)] else []) := by
  intro pgdata config
  unfold bootstrapEvents alterUserStatements
  simp only [List.filterMap_append]
  rw [hbaSection_fst, List.filterMap_append]
  have h2 := pp_trust_map 11 ("ALTER USER ").data
    ((if config.postgres_password = some "" then ["postgres"] else []) ++
      (config.users.filter (fun u => u.password == some "")).map PGUser.name)
  rw [h2, pp_warn_if, aus_alter_admin, aus_users_map, aus_db_flat, aus_conf_map]
  simp [psqlPrefixed]

end Entrypoint
